import Mathlib

/-
Verification of the tremor-language-server LSP backend (src/main.rs).

The repository's own code is `Backend::run_checks`, the `LanguageServer`
handler implementations (`initialize`, `hover`, `did_change`, `did_close`,
`completion`, `symbol`, `document_highlight`), `to_lsp_position` and
`file_dbg`. The parser (`tremor_script::script::Script::parse`), the
registry (`tremor_script::registry::registry`) and the LSP types
(`tower_lsp::lsp_types`) are external libraries: the parser is embedded as
an explicit function parameter (a black box honoring the `Result` shape the
code matches on), and the LSP types as Lean structures mirroring the fields
the code uses.

Side effects of this code (the per-call `registry::registry()` construction
and the `file_dbg` debug-file write) are made explicit in an `Effects`
record returned alongside the diagnostics.
-/

namespace TremorLS

/-- Protocol position (`lsp_types::Position`): zero-based `line` and
`character`, both `u64` in the source. Columns are counted however the
producer counted them; the protocol convention is UTF-16 code units. -/
structure Position where
  line : Nat
  character : Nat
deriving Repr, DecidableEq

/-- Protocol range (`lsp_types::Range`): `start`/`end` positions. The Rust
field `end` is a Lean keyword, rendered `end_`. -/
structure Range where
  start : Position
  end_ : Position
deriving Repr, DecidableEq

/-- The `Range::default()` value: a zero-length range at document start
(both positions at line 0, character 0), as produced by `Default` on
`lsp_types::Range`. -/
def Range.default : Range :=
  ⟨⟨0, 0⟩, ⟨0, 0⟩⟩

/-- Analyzer-native source location (`tremor_script::pos::Location`):
1-based `line` and `column` as the analyzer counts them. Only the two
fields read by `to_lsp_position` are modelled. -/
structure Location where
  line : Nat
  column : Nat
deriving Repr, DecidableEq

/-- Analyzer-native source range (`tremor_script::pos::Range(start, end)`):
a pair of locations. -/
structure SrcRange where
  start : Location
  end_ : Location
deriving Repr, DecidableEq

/-- Diagnostic (`lsp_types::Diagnostic`) with the fields the code fills.
`severity`, `code`, `source` and `related_information` are always set to
`None` by `run_checks`; their payload types are external enums/structs the
code never constructs, modelled by placeholder types. -/
structure Diagnostic where
  range : Range
  severity : Option Nat
  code : Option String
  source : Option String
  message : String
  related_information : Option Unit
deriving Repr, DecidableEq

/-- The external registry value (`tremor_script::registry::registry()`).
Its contents are opaque to this repository's code, which only passes it by
reference to the parser. -/
structure Registry where
deriving Repr, DecidableEq

/-- Black-box model of the parser's error type
(`tremor_script::script::Error`). The code reads `e.context()`, a pair
whose first component it ignores (`(_, Some(pos::Range(..)))`) and whose
second is an optional native source range, and `e.to_string()`. Only those
two observations are modelled. -/
structure ScriptError where
  contextRange : Option SrcRange
  errString : String
deriving Repr, DecidableEq

/-- `to_lsp_position` (src/main.rs:129-132): converts a 1-based analyzer
location to a zero-based protocol position by subtracting one from line
and column. Plain arithmetic, no inspection of the source text. -/
def to_lsp_position (location : Location) : Position :=
  ⟨location.line - 1, location.column - 1⟩

/-- Escape of a single character as in Rust's `Debug` formatting of a
string (the common cases: quote, backslash, newline, carriage return,
tab). No claim depends on the message text, so rarer `escape_debug` cases
(other control characters, non-printables) are not modelled. -/
def rustEscapeChar (c : Char) : String :=
  if c = '"' then "\\\""
  else if c = '\\' then "\\\\"
  else if c = '\n' then "\\n"
  else if c = '\r' then "\\r"
  else if c = '\t' then "\\t"
  else Char.toString c

/-- Model of `format!("{:?}", &e.to_string())`: the `Debug` rendering of a
Rust string, i.e. the string wrapped in quotes with escapes. -/
def rustDebugFormat (s : String) : String :=
  "\"" ++ String.join (s.toList.map rustEscapeChar) ++ "\""

/-- Observable side effects of one `run_checks` call: how many times the
registry was constructed (`registry::registry()`), and the debug-file
writes performed by `file_dbg(name, content)` (src/main.rs:135-143). -/
structure Effects where
  registryConstructions : Nat
  fileWrites : List (String × String)
deriving Repr, DecidableEq

/-- `Backend::run_checks` (src/main.rs:13-42) with its side effects made
explicit. `parse` is the external `script::Script::parse(text, &reg)`,
taking the text and the registry; its success artifact (`Script`) is
discarded by the code, so it is modelled as `Unit`. The body:
write the debug file, construct a fresh registry, parse; on error build a
range from the error's context (default range when absent) and push one
diagnostic with all optional fields `None` and the debug-formatted error
string as message. -/
def run_checksFull (parse : String → Registry → Except ScriptError Unit)
    (text : String) : List Diagnostic × Effects :=
  let writes : List (String × String) := [("run_checks", text)]
  let reg : Registry := Registry.mk
  let diagnostics : List Diagnostic :=
    match parse text reg with
    | Except.error e =>
      let range : Range :=
        match e.contextRange with
        | some r => ⟨to_lsp_position r.start, to_lsp_position r.end_⟩
        | none => Range.default
      [⟨range, none, none, none, rustDebugFormat e.errString, none⟩]
    | Except.ok _ => []
  (diagnostics, ⟨1, writes⟩)

/-- The diagnostics returned by `Backend::run_checks`. -/
def run_checks (parse : String → Registry → Except ScriptError Unit)
    (text : String) : List Diagnostic :=
  (run_checksFull parse text).1

/-- `lsp_types::TextDocumentContentChangeEvent` (full-sync mode): the code
reads only `.text`; `range` and `range_length` exist in the external type
and are modelled as the optional fields they are. -/
structure TextDocumentContentChangeEvent where
  range : Option Range
  range_length : Option Nat
  text : String
deriving Repr, DecidableEq

/-- `lsp_types::VersionedTextDocumentIdentifier`: a URI (modelled as its
string form) and an optional client-supplied version. -/
structure VersionedTextDocumentIdentifier where
  uri : String
  version : Option Nat
deriving Repr, DecidableEq

/-- `lsp_types::DidChangeTextDocumentParams`. -/
structure DidChangeTextDocumentParams where
  text_document : VersionedTextDocumentIdentifier
  content_changes : List TextDocumentContentChangeEvent
deriving Repr, DecidableEq

/-- `lsp_types::TextDocumentIdentifier`. -/
structure TextDocumentIdentifier where
  uri : String
deriving Repr, DecidableEq

/-- `lsp_types::DidCloseTextDocumentParams`. -/
structure DidCloseTextDocumentParams where
  text_document : TextDocumentIdentifier
deriving Repr, DecidableEq

/-- `Backend::did_change` (src/main.rs:112-118): publishes
`run_checks(&params.content_changes[0].text)` for the document's URI. The
Rust index expression `params.content_changes[0]` panics when the list is
empty; the panic is modelled as `none`, a `some (uri, diags)` being the
publish the handler performs. -/
def did_change (parse : String → Registry → Except ScriptError Unit)
    (params : DidChangeTextDocumentParams) :
    Option (String × List Diagnostic) :=
  match params.content_changes with
  | [] => none
  | c :: _ => some (params.text_document.uri, run_checks parse c.text)

/-- `Backend::did_close` (src/main.rs:121-125): publishes the empty
diagnostic list `vec![]` for the closed document's URI. -/
def did_close (params : DidCloseTextDocumentParams) :
    String × List Diagnostic :=
  (params.text_document.uri, [])

/-- Inbound lifecycle notifications whose handlers publish diagnostics.
`didOpen` is omitted: its handler reads the file from disk (external IO)
and no claim is about it. -/
inductive Notification where
  | didChange (params : DidChangeTextDocumentParams)
  | didClose (params : DidCloseTextDocumentParams)
deriving Repr, DecidableEq

/-- The publish performed by one notification's handler, `none` when the
handler panics (empty `content_changes`). -/
def publishesOf (parse : String → Registry → Except ScriptError Unit) :
    Notification → Option (String × List Diagnostic)
  | Notification.didChange p => did_change parse p
  | Notification.didClose p => some (did_close p)

/-- Sequential processing of a notification stream. Each handler runs
synchronously (`run_checks` is called and `publish_diagnostics` issued
inside the handler body before it returns), so publishes appear in
notification order; a panic aborts the whole run (`none`). -/
def processTrace (parse : String → Registry → Except ScriptError Unit) :
    List Notification → Option (List (String × List Diagnostic))
  | [] => some []
  | n :: ns =>
    match publishesOf parse n with
    | none => none
    | some p =>
      match processTrace parse ns with
      | none => none
      | some ps => some (p :: ps)

/-- The payload of the last publish for a given URI in a publish list. -/
def lastPublished (uri : String)
    (pubs : List (String × List Diagnostic)) : Option (List Diagnostic) :=
  ((pubs.filter (fun p => p.1 == uri)).getLast?).map Prod.snd

/-- `lsp_types::ServerCapabilities`, restricted to the capability fields
the claims mention; every field of the external struct defaults to `None`
(the crate's `Default`), and the source overrides none but
`hover_provider`. This protocol version has no diagnostics capability
field at all: publishing diagnostics requires no declaration. -/
structure ServerCapabilities where
  text_document_sync : Option Nat := none
  hover_provider : Option Bool := none
  completion_provider : Option Unit := none
  document_symbol_provider : Option Bool := none
  workspace_symbol_provider : Option Bool := none
  document_highlight_provider : Option Bool := none
deriving Repr, DecidableEq

/-- `lsp_types::InitializeResult`. -/
structure InitializeResult where
  capabilities : ServerCapabilities
deriving Repr, DecidableEq

/-- `Backend::initialize` (src/main.rs:53-60): returns
`ServerCapabilities::default()` with `hover_provider: Some(true)`. The
params are ignored (`_`). -/
def initializeBackend : InitializeResult :=
  ⟨{ hover_provider := some true }⟩

/-- `lsp_types::TextDocumentPositionParams`. -/
structure TextDocumentPositionParams where
  text_document : TextDocumentIdentifier
  position : Position
deriving Repr, DecidableEq

/-- `lsp_types::Hover` with `HoverContents::Scalar(MarkedString::String s)`
modelled as the carried string. -/
structure Hover where
  contents : String
  range : Option Range
deriving Repr, DecidableEq

/-- `Backend::hover` (src/main.rs:85-95): always answers with a placeholder
`Hover` whose contents are the decimal rendering of the requested
character position (`params.position.character.to_string()`), marked in
the source `TODO remove. just for test right now`. -/
def hover (params : TextDocumentPositionParams) : Option Hover :=
  some ⟨Nat.repr params.position.character, none⟩

/-- `Backend::completion` (src/main.rs:81-83): always `None`. -/
def completion (_params : Unit) : Option Unit :=
  none

/-- `Backend::symbol` (src/main.rs:73-75): always `None`. -/
def symbol (_params : Unit) : Option (List Unit) :=
  none

/-- `Backend::document_highlight` (src/main.rs:97-99): always `None`. -/
def document_highlight (_params : TextDocumentPositionParams) :
    Option (List Unit) :=
  none

/-- UTF-16 code-unit length of one character: astral characters (scalar
value at least 0x10000) take a surrogate pair, two code units; all others
take one. -/
def utf16Len (c : Char) : Nat :=
  if c.toNat < 0x10000 then 1 else 2

/-- Modelled from the spec: the Position Mapper's re-derived column.
"Column counts must be expressed in UTF-16 code units … the mapper must
re-derive the column by scanning the corresponding source line's code
units, not by naive arithmetic subtraction." Missing from src/: no such
scanning exists in the repository. Given the source line's text and the
analyzer-native 1-based column (counted in Unicode scalar values), the
1-based UTF-16 code-unit column is one plus the code units occupied by
the preceding scalar values. -/
def utf16ColOfLine (lineText : String) (nativeCol : Nat) : Nat :=
  1 + ((lineText.toList.take (nativeCol - 1)).map utf16Len).sum

/-- A concrete instance of the external parser that always succeeds, used
to evaluate the handlers at concrete inputs. -/
def parseOk : String → Registry → Except ScriptError Unit :=
  fun _ _ => Except.ok ()

/-- A concrete parser error whose context carries the native range
(line 1, column 2)–(line 1, column 3): an error reported right after the
first character of the first line. -/
def astralErr : ScriptError :=
  ⟨some ⟨⟨1, 2⟩, ⟨1, 3⟩⟩, "e"⟩

/-- A concrete instance of the external parser that always fails with
`astralErr`. -/
def parseAstral : String → Registry → Except ScriptError Unit :=
  fun _ _ => Except.error astralErr

/-- A concrete parser error whose context carries no source range. -/
def noRangeErr : ScriptError :=
  ⟨none, "oops"⟩

/-- A concrete instance of the external parser that always fails with
`noRangeErr`. -/
def parseNoRange : String → Registry → Except ScriptError Unit :=
  fun _ _ => Except.error noRangeErr

/-- Sequential processing distributes over concatenation of notification
streams: the run succeeds exactly when both halves do, and the publishes
are those of the first half followed by those of the second. -/
theorem processTrace_append
    (parse : String → Registry → Except ScriptError Unit)
    (as bs : List Notification) :
    processTrace parse (as ++ bs) =
      (processTrace parse as).bind (fun xs =>
        (processTrace parse bs).map (fun ys => xs ++ ys)) := by
  induction as with
  | nil =>
    cases h : processTrace parse bs <;> simp [processTrace, h]
  | cons n ns ih =>
    simp only [List.cons_append, processTrace, List.append_eq]
    rw [ih]
    cases publishesOf parse n with
    | none => simp
    | some p =>
      cases processTrace parse ns with
      | none => simp
      | some xs =>
        cases processTrace parse bs <;> simp

/-- C1 (counterexample): on the line `𝔞x` (one astral character, then one
ASCII character) with an analyzer error at native (line 1, column 2), the
code publishes range start (0, 1) by naive subtraction, while the UTF-16
recomputation the claim requires gives column 3, i.e. protocol character
2: the two disagree. -/
theorem c1_naive_column_counterexample :
    astralErr.contextRange = some ⟨⟨1, 2⟩, ⟨1, 3⟩⟩ ∧
    (run_checks parseAstral "𝔞x").head?.map (fun d => d.range.start) =
      some ⟨0, 1⟩ ∧
    utf16ColOfLine "𝔞x" 2 - 1 = 2 ∧
    Position.mk 0 1 ≠ Position.mk 0 2 := by
  refine ⟨rfl, rfl, by decide, by decide⟩

/-- C1 (amended): for every analyzer error whose context carries a native
source range, the published diagnostic's protocol range start is obtained
by naive arithmetic subtraction on the analyzer's native 1-based
coordinates — (line-1, column-1) — with no UTF-16 recomputation from the
source text. -/
theorem c1_position_arithmetic
    (parse : String → Registry → Except ScriptError Unit) (text : String)
    (e : ScriptError) (r : SrcRange)
    (hp : parse text Registry.mk = Except.error e)
    (hc : e.contextRange = some r) :
    (run_checks parse text).head?.map (fun d => d.range.start) =
      some ⟨r.start.line - 1, r.start.column - 1⟩ := by
  simp [run_checks, run_checksFull, hp, hc, to_lsp_position]

/-- Witness for `c1_position_arithmetic` at the concrete failing parse. -/
theorem c1_position_arithmetic_witness :
    (run_checks parseAstral "𝔞x").head?.map (fun d => d.range.start) =
      some ⟨0, 1⟩ := by
  simpa using c1_position_arithmetic parseAstral "𝔞x" astralErr
    ⟨⟨1, 2⟩, ⟨1, 3⟩⟩ rfl rfl

/-- C2: when the parse of the text succeeds, `run_checks` returns the
empty diagnostic list and `did_change` publishes that empty list for the
document's URI. -/
theorem c2_success_empty_diagnostics
    (parse : String → Registry → Except ScriptError Unit)
    (text uri : String) (v : Option Nat)
    (hok : parse text Registry.mk = Except.ok ()) :
    run_checks parse text = [] ∧
    did_change parse ⟨⟨uri, v⟩, [⟨none, none, text⟩]⟩ = some (uri, []) := by
  have h1 : run_checks parse text = [] := by
    simp [run_checks, run_checksFull, hok]
  exact ⟨h1, by simp [did_change, h1]⟩

/-- Witness for `c2_success_empty_diagnostics` at a concrete input. -/
theorem c2_success_empty_diagnostics_witness :
    run_checks parseOk "let x = 1;" = [] ∧
    did_change parseOk ⟨⟨"file:///a", some 1⟩, [⟨none, none, "let x = 1;"⟩]⟩ =
      some ("file:///a", []) :=
  c2_success_empty_diagnostics parseOk "let x = 1;" "file:///a" (some 1) rfl

/-- C3: processing `didChange` with version v1 then `didChange` with
version v2 > v1 for the same URI, the final published diagnostics for the
URI are those of the second update's text. The handlers run `run_checks`
and publish synchronously inside the handler body, so completion order
coincides with notification order and the later update's result is the
last publish; the version numbers themselves are never read by the code. -/
theorem c3_last_update_wins
    (parse : String → Registry → Except ScriptError Unit)
    (uri t1 t2 : String) (v1 v2 : Nat) (hv : v1 < v2) :
    ∃ pubs,
      processTrace parse
        [Notification.didChange ⟨⟨uri, some v1⟩, [⟨none, none, t1⟩]⟩,
         Notification.didChange ⟨⟨uri, some v2⟩, [⟨none, none, t2⟩]⟩] =
        some pubs ∧
      lastPublished uri pubs = some (run_checks parse t2) := by
  refine ⟨[(uri, run_checks parse t1), (uri, run_checks parse t2)], rfl, ?_⟩
  simp [lastPublished, List.filter, List.getLast?]

/-- Witness for `c3_last_update_wins` at concrete versions 1 < 2. -/
theorem c3_last_update_wins_witness :
    ∃ pubs,
      processTrace parseOk
        [Notification.didChange ⟨⟨"u", some 1⟩, [⟨none, none, "a"⟩]⟩,
         Notification.didChange ⟨⟨"u", some 2⟩, [⟨none, none, "b"⟩]⟩] =
        some pubs ∧
      lastPublished "u" pubs = some (run_checks parseOk "b") :=
  c3_last_update_wins parseOk "u" "a" "b" 1 2 (by decide)

/-- C4: when the parse fails with an error whose context carries no source
range, `run_checks` returns (does not fail) exactly one diagnostic whose
range is the default zero-length range at document start. -/
theorem c4_default_range_on_missing_context
    (parse : String → Registry → Except ScriptError Unit) (text : String)
    (e : ScriptError)
    (hp : parse text Registry.mk = Except.error e)
    (hc : e.contextRange = none) :
    run_checks parse text =
      [⟨⟨⟨0, 0⟩, ⟨0, 0⟩⟩, none, none, none,
        rustDebugFormat e.errString, none⟩] := by
  simp [run_checks, run_checksFull, hp, hc, Range.default]

/-- Witness for `c4_default_range_on_missing_context` at the concrete
range-less error. -/
theorem c4_default_range_on_missing_context_witness :
    run_checks parseNoRange "let x = " =
      [⟨⟨⟨0, 0⟩, ⟨0, 0⟩⟩, none, none, none,
        rustDebugFormat "oops", none⟩] :=
  c4_default_range_on_missing_context parseNoRange "let x = " noRangeErr rfl rfl

/-- C5: one analysis run produces exactly zero diagnostics when the parse
succeeds and exactly one when it fails, hence always at most one; a parse
failure yields this ordinary list result, never a failure of the run
(`run_checks` is a total function). -/
theorem c5_at_most_one_diagnostic
    (parse : String → Registry → Except ScriptError Unit) (text : String) :
    (run_checks parse text).length =
      (match parse text Registry.mk with
       | Except.ok _ => 0
       | Except.error _ => 1) ∧
    (run_checks parse text).length ≤ 1 := by
  cases h : parse text Registry.mk <;>
    simp [run_checks, run_checksFull, h]

/-- C6 (counterexample): initialization declares the hover capability
present (`hover_provider = Some(true)`), not absent, and the hover handler
returns placeholder data echoing the requested character position. -/
theorem c6_hover_capability_counterexample :
    initializeBackend.capabilities.hover_provider = some true ∧
    initializeBackend.capabilities.hover_provider ≠ none ∧
    hover ⟨⟨"file:///a"⟩, ⟨3, 5⟩⟩ = some ⟨"5", none⟩ ∧
    hover ⟨⟨"file:///a"⟩, ⟨3, 5⟩⟩ ≠ none := by
  refine ⟨rfl, by decide, by decide, by decide⟩

/-- C6 (amended): the initialization response declares hover support only
(`hover_provider = Some(true)`, every other capability field left at its
`None` default; no diagnostics capability field exists in this protocol
version). The hover handler returns a placeholder echoing the requested
character position, while completion, symbol and highlight handlers return
`None`. -/
theorem c6_declared_capabilities (p : TextDocumentPositionParams) :
    initializeBackend.capabilities = { hover_provider := some true } ∧
    hover p = some ⟨Nat.repr p.position.character, none⟩ ∧
    completion () = none ∧
    symbol () = none ∧
    document_highlight p = none :=
  ⟨rfl, rfl, rfl, rfl, rfl⟩

/-- C7: any successfully processed notification stream that ends with a
`didClose` for a URI has the empty diagnostic list as its last publish for
that URI. -/
theorem c7_close_publishes_empty
    (parse : String → Registry → Except ScriptError Unit)
    (ns : List Notification) (uri : String)
    (pubs : List (String × List Diagnostic))
    (h : processTrace parse (ns ++ [Notification.didClose ⟨⟨uri⟩⟩]) =
      some pubs) :
    lastPublished uri pubs = some [] := by
  rw [processTrace_append] at h
  cases hx : processTrace parse ns with
  | none => rw [hx] at h; simp at h
  | some xs =>
    rw [hx] at h
    have hclose : processTrace parse [Notification.didClose ⟨⟨uri⟩⟩] =
        some [(uri, [])] := rfl
    rw [hclose] at h
    simp only [Option.bind, Option.map] at h
    cases h
    simp [lastPublished, List.filter_append, List.getLast?_concat]

/-- Witness for `c7_close_publishes_empty` on the one-notification stream
consisting of a single close. -/
theorem c7_close_publishes_empty_witness :
    lastPublished "u" [("u", [])] = some [] :=
  c7_close_publishes_empty parseOk [] "u" [("u", [])] rfl

/-- C8 (counterexample): a single `run_checks` call constructs the
registry (`registry::registry()` is called in its body), so the registry
is constructed per request, not zero times per call; the call also writes
a debug file. -/
theorem c8_registry_per_call_counterexample :
    (run_checksFull parseOk "x").2.registryConstructions = 1 ∧
    ¬ (run_checksFull parseOk "x").2.registryConstructions = 0 ∧
    (run_checksFull parseOk "x").2.fileWrites ≠ [] := by
  refine ⟨rfl, by decide, by decide⟩

/-- C8 (amended): every analysis call constructs the registry exactly once
(per request, inside `run_checks`) and performs exactly one debug-file
write; apart from those effects the diagnostics are a function of the
parse outcome alone: equal parse outcomes give equal diagnostics. -/
theorem c8_effects_per_call
    (p1 p2 : String → Registry → Except ScriptError Unit) (t1 t2 : String)
    (h : p1 t1 Registry.mk = p2 t2 Registry.mk) :
    (run_checksFull p1 t1).2.registryConstructions = 1 ∧
    (run_checksFull p1 t1).2.fileWrites = [("run_checks", t1)] ∧
    run_checks p1 t1 = run_checks p2 t2 := by
  refine ⟨rfl, rfl, ?_⟩
  simp [run_checks, run_checksFull, h]

/-- Witness for `c8_effects_per_call` at two concrete always-succeeding
parses on different texts. -/
theorem c8_effects_per_call_witness :
    (run_checksFull parseOk "x").2.registryConstructions = 1 ∧
    (run_checksFull parseOk "x").2.fileWrites = [("run_checks", "x")] ∧
    run_checks parseOk "x" = run_checks (fun _ _ => Except.ok ()) "y" :=
  c8_effects_per_call parseOk (fun _ _ => Except.ok ()) "x" "y" rfl

/-- C9: two consecutive updates with identical text and increasing
versions publish, in the end, the same diagnostics for the URI as a single
update with that text: the analysis of a given text is deterministic. -/
theorem c9_idempotent_update
    (parse : String → Registry → Except ScriptError Unit)
    (uri t : String) (v1 v2 v : Nat) (hv : v1 < v2) :
    (processTrace parse
      [Notification.didChange ⟨⟨uri, some v1⟩, [⟨none, none, t⟩]⟩,
       Notification.didChange ⟨⟨uri, some v2⟩, [⟨none, none, t⟩]⟩]).bind
      (lastPublished uri) =
    (processTrace parse
      [Notification.didChange ⟨⟨uri, some v⟩, [⟨none, none, t⟩]⟩]).bind
      (lastPublished uri) := by
  simp [processTrace, publishesOf, did_change, lastPublished, List.filter,
    List.getLast?]

/-- Witness for `c9_idempotent_update` at concrete versions 1 < 2. -/
theorem c9_idempotent_update_witness :
    (processTrace parseOk
      [Notification.didChange ⟨⟨"u", some 1⟩, [⟨none, none, "t"⟩]⟩,
       Notification.didChange ⟨⟨"u", some 2⟩, [⟨none, none, "t"⟩]⟩]).bind
      (lastPublished "u") =
    (processTrace parseOk
      [Notification.didChange ⟨⟨"u", some 7⟩, [⟨none, none, "t"⟩]⟩]).bind
      (lastPublished "u") :=
  c9_idempotent_update parseOk "u" "t" 1 2 7 (by decide)

/-- C10: `did_change` reads only the first element of `content_changes`:
it publishes the diagnostics of the first change's text when the list is
non-empty, and the index access `content_changes[0]` panics (the handler
fails, modelled `none`) when the list is empty. -/
theorem c10_first_change_only
    (parse : String → Registry → Except ScriptError Unit)
    (uri : String) (v : Option Nat)
    (cs : List TextDocumentContentChangeEvent) :
    did_change parse ⟨⟨uri, v⟩, cs⟩ =
      cs.head?.map (fun c => (uri, run_checks parse c.text)) := by
  cases cs <;> simp [did_change]

end TremorLS
